import Mathlib

/-!
Verification of the 3D transform filter core of obs-StreamFX
(`src/source/filters/filter-transform.cpp`).

Modelling conventions:
* `obs_data_t` settings snapshots are association lists `String × ℚ`, holding
  the user-set values; `obs_data_get_*` falls back to the per-key defaults
  registered in `transform_factory::get_defaults2`.  obs_data stores typed
  numbers (int/double/bool); all are modelled in ℚ, with integer truncation
  for `obs_data_get_int` and a nonzero test for `obs_data_get_bool`.
* C `double` arithmetic in the cache-sizing code is modelled by exact
  rational/natural arithmetic.  This is exact for the code at hand: with
  `w, h : uint32`, `aspect = w/h` compares against `1.0` exactly as `w` vs
  `h` does, and `uint64_t(cache * (h/w))` with `cache ≤ 16384` a power of
  two equals `⌊cache·h/w⌋` (when the exact product is an integer, `h/w` is
  dyadic and hence an exact double; otherwise the product is more than
  `2^-39` away from any integer while the rounding error is below that).
* GPU objects (render targets, textures, the vertex buffer, effects) are
  opaque; `video_render` is modelled as a state transformer over the
  instance state with the host-supplied outcomes (filter-begin success,
  fetched texture handles) given as an environment.
* `float` values are modelled as real numbers; trigonometry uses `Real.cos`
  and `Real.sin`.
-/

namespace StreamFX

noncomputable section

/-! ## Settings snapshots (`obs_data_t`) -/

/-- A settings snapshot: the keys holding user-set values, each with its
value (modelled in ℚ regardless of the obs_data number type). -/
abbrev Settings := List (String × ℚ)

/-- `obs_data_has_user_value`. -/
def hasUserValue (s : Settings) (k : String) : Bool :=
  (s.find? (fun p => p.1 == k)).isSome

/-- Remove every binding of `k` (`obs_data_unset_user_value`). -/
def eraseKey (s : Settings) (k : String) : Settings :=
  s.filter (fun p => !(p.1 == k))

/-- `obs_data_set_<type>`: store a user value, replacing any previous one. -/
def setValue (s : Settings) (k : String) (v : ℚ) : Settings :=
  (k, v) :: eraseKey s k

/-- The raw user value under `k`, if any. -/
def findVal (s : Settings) (k : String) : Option ℚ :=
  ((s.find? (fun p => p.1 == k)).map (fun p => p.2))

/-- Per-key defaults registered in `transform_factory::get_defaults2`
(booleans as 0/1; all keys not listed there default to 0). -/
def transform_defaults (k : String) : ℚ :=
  if k == "Camera.FieldOfView" then 90
  else if k == "Rotation.Order" then 4      -- RotationOrder::ZXY
  else if k == "Scale.X" then 100
  else if k == "Scale.Y" then 100
  else 0

/-- `obs_data_get_<type>` as a rational: user value, else registered default. -/
def getData (s : Settings) (k : String) : ℚ :=
  (findVal s k).getD (transform_defaults k)

/-- C truncation of a rational toward zero (`(long long)double`);
`Int` division in Lean truncates toward zero, matching C. -/
def ratTrunc (q : ℚ) : Int :=
  q.num.tdiv (q.den : Int)

/-- `obs_data_get_int`. -/
def getInt (s : Settings) (k : String) : Int :=
  ratTrunc (getData s k)

/-- `obs_data_get_bool` (obs_data booleans are modelled as 0/1). -/
def getBoolData (s : Settings) (k : String) : Bool :=
  !(getData s k == 0)

/-- `static_cast<uint32_t>` of an `int64_t`: reduce modulo `2^32`. -/
def toU32 (i : Int) : Nat :=
  (i.emod (2 ^ 32)).toNat

/-! ## Schema migration (`transform_instance::migrate`) -/

/-- Modelled from the spec: `STREAMFX_MAKE_VERSION(A,B,C,D)` packs the four
version components into one 64-bit number, high component first (the version
number is monotonically increasing in the release order). -/
def makeVersion (a b c d : Nat) : Nat :=
  a * 2 ^ 48 + b * 2 ^ 32 + c * 2 ^ 16 + d

/-- Modelled from the spec: `version & STREAMFX_MASK_UPDATE` clears the
tweak component D, so that only A.B.C of A.B.C.D is tested. -/
def maskUpdate (v : Nat) : Nat :=
  v / 2 ^ 16 * 2 ^ 16

/-- The `COPY_UNSET` macro: if `old` has a user value, store it under `new`
(overwriting whatever is there) and unset `old`. -/
def copyUnset (s : Settings) (o n : String) : Settings :=
  if hasUserValue s o then eraseKey (setValue s n (getData s o)) o else s

/-- The `COPY_IGNORE` macro: if `old` has a user value, store it under `new`
without unsetting `old`. -/
def copyIgnore (s : Settings) (o n : String) : Settings :=
  if hasUserValue s o then setValue s n (getData s o) else s

/-- The `SET_IF_UNSET` macro. -/
def setIfUnset (s : Settings) (k : String) (v : ℚ) : Settings :=
  if hasUserValue s k then s else setValue s k v

/-- `transform_instance::migrate`, line for line.  Note the argument order
of the `COPY_UNSET` uses below: the first (source, unset afterwards) key is
the current short key that `update` reads, the second (destination) key is
the pre-0.11 legacy key. -/
def migrate (s0 : Settings) (version : Nat) : Settings :=
  let v := maskUpdate version
  let s1 :=
    if v < makeVersion 0 8 0 0 then
      copyIgnore (copyIgnore s0 "Rotation.X" "Rotation.X") "Rotation.Y" "Rotation.Y"
    else s0
  if v < makeVersion 0 11 0 0 then
    let s2 := copyUnset s1 "Camera.Mode" "Filter.Transform.Camera"
    let s3 := copyUnset s2 "Camera.FieldOfView" "Filter.Transform.Camera.FieldOfView"
    let s4 := copyUnset s3 "Position.X" "Filter.Transform.Position.X"
    let s5 := copyUnset s4 "Position.Y" "Filter.Transform.Position.Y"
    let s6 := copyUnset s5 "Position.Z" "Filter.Transform.Position.Z"
    let s7 := copyUnset s6 "Rotation.X" "Filter.Transform.Rotation.X"
    let s8 := copyUnset s7 "Rotation.Y" "Filter.Transform.Rotation.Y"
    let s9 := copyUnset s8 "Rotation.Z" "Filter.Transform.Rotation.Z"
    let s10 := copyUnset s9 "Scale.X" "Filter.Transform.Scale.X"
    let s11 := copyUnset s10 "Scale.Y" "Filter.Transform.Scale.Y"
    let s12 := copyUnset s11 "Shear.X" "Filter.Transform.Shear.X"
    let s13 := copyUnset s12 "Shear.Y" "Filter.Transform.Shear.Y"
    let s14 := copyUnset s13 "Rotation.Order" "Filter.Transform.Rotation.Order"
    let s15 := copyUnset s14 "Mipmapping" "Filter.Transform.Mipmapping"
    if hasUserValue s15 "Camera.Mode" then s15
    else setIfUnset s15 "Camera.Mode" 0
  else s1

/-! ## Vectors and matrices

libobs uses row vectors: `vec3_transform v m` computes `v ⬝ M.lin + M.tr`,
and `matrix4_mul dst m1 m2` composes so that `m1` is applied first.  A
`matrix4` whose fourth column is `(0,0,0,1)ᵀ` — the only kind this filter
builds — is represented as a linear part plus a translation row. -/

/-- A `vec3` (float components modelled as reals). -/
structure Vec3 where
  x : ℝ
  y : ℝ
  z : ℝ

/-- A 3×3 matrix, row convention. -/
structure Mat3 where
  m00 : ℝ
  m01 : ℝ
  m02 : ℝ
  m10 : ℝ
  m11 : ℝ
  m12 : ℝ
  m20 : ℝ
  m21 : ℝ
  m22 : ℝ

/-- The identity 3×3 matrix. -/
def Mat3.one : Mat3 := ⟨1, 0, 0, 0, 1, 0, 0, 0, 1⟩

/-- Standard matrix product: applying `A.mul B` to a row vector applies
`A` first, then `B`. -/
def Mat3.mul (A B : Mat3) : Mat3 :=
  ⟨A.m00 * B.m00 + A.m01 * B.m10 + A.m02 * B.m20,
   A.m00 * B.m01 + A.m01 * B.m11 + A.m02 * B.m21,
   A.m00 * B.m02 + A.m01 * B.m12 + A.m02 * B.m22,
   A.m10 * B.m00 + A.m11 * B.m10 + A.m12 * B.m20,
   A.m10 * B.m01 + A.m11 * B.m11 + A.m12 * B.m21,
   A.m10 * B.m02 + A.m11 * B.m12 + A.m12 * B.m22,
   A.m20 * B.m00 + A.m21 * B.m10 + A.m22 * B.m20,
   A.m20 * B.m01 + A.m21 * B.m11 + A.m22 * B.m21,
   A.m20 * B.m02 + A.m21 * B.m12 + A.m22 * B.m22⟩

/-- Row vector times matrix. -/
def vecMulMat (v : Vec3) (M : Mat3) : Vec3 :=
  ⟨v.x * M.m00 + v.y * M.m10 + v.z * M.m20,
   v.x * M.m01 + v.y * M.m11 + v.z * M.m21,
   v.x * M.m02 + v.y * M.m12 + v.z * M.m22⟩

/-- Componentwise vector addition. -/
def vecAdd (a b : Vec3) : Vec3 :=
  ⟨a.x + b.x, a.y + b.y, a.z + b.z⟩

/-- A `matrix4` with trivial fourth column: linear part and translation row. -/
structure Mat4 where
  lin : Mat3
  tr : Vec3

/-- `matrix4_identity`. -/
def Mat4.one : Mat4 := ⟨Mat3.one, ⟨0, 0, 0⟩⟩

/-- `matrix4_mul dst m1 m2` (row convention: `m1` applied first). -/
def Mat4.mul (A B : Mat4) : Mat4 :=
  ⟨A.lin.mul B.lin, vecAdd (vecMulMat A.tr B.lin) B.tr⟩

/-- Modelled from the spec: the rotation matrix about axis `(ax, ay, az)`
by angle `θ` (libobs `matrix4_from_axisang`, not in src/), in the
Rodrigues closed form for a unit axis, row convention. -/
def rotAA (ax ay az θ : ℝ) : Mat3 :=
  let c := Real.cos θ
  let s := Real.sin θ
  ⟨c + ax * ax * (1 - c), ax * ay * (1 - c) + az * s, ax * az * (1 - c) - ay * s,
   ax * ay * (1 - c) - az * s, c + ay * ay * (1 - c), ay * az * (1 - c) + ax * s,
   ax * az * (1 - c) + ay * s, ay * az * (1 - c) - ax * s, c + az * az * (1 - c)⟩

/-- Modelled from the spec: `matrix4_rotate_aa4f(&m, &m, ax, ay, az, θ)`
right-multiplies `m` by the axis-angle rotation. -/
def matrix4_rotate_aa4f (m : Mat4) (ax ay az θ : ℝ) : Mat4 :=
  m.mul ⟨rotAA ax ay az θ, ⟨0, 0, 0⟩⟩

/-- Modelled from the spec: `matrix4_translate3f(&m, &m, x, y, z)`
right-multiplies `m` by the translation, so it is applied last. -/
def matrix4_translate3f (m : Mat4) (x y z : ℝ) : Mat4 :=
  m.mul ⟨Mat3.one, ⟨x, y, z⟩⟩

/-- `vec3_transform`. -/
def vec3_transform (v : Vec3) (m : Mat4) : Vec3 :=
  vecAdd (vecMulMat v m.lin) m.tr

/-- Closed-form single-axis rotation about X, row convention
(for comparison with the composition the code builds). -/
def RxM (θ : ℝ) : Mat3 :=
  ⟨1, 0, 0, 0, Real.cos θ, Real.sin θ, 0, -Real.sin θ, Real.cos θ⟩

/-- Closed-form single-axis rotation about Y, row convention. -/
def RyM (θ : ℝ) : Mat3 :=
  ⟨Real.cos θ, 0, -Real.sin θ, 0, 1, 0, Real.sin θ, 0, Real.cos θ⟩

/-- Closed-form single-axis rotation about Z, row convention. -/
def RzM (θ : ℝ) : Mat3 :=
  ⟨Real.cos θ, Real.sin θ, 0, -Real.sin θ, Real.cos θ, 0, 0, 0, 1⟩

/-! ## Parameter state (`transform_instance::update`) -/

/-- The in-memory parameter state written by `transform_instance::update`. -/
structure TransformParams where
  camera_orthographic : Bool
  camera_fov : ℝ
  position : Vec3
  scale : Vec3
  rotation_order : Nat
  rotation : Vec3
  shear : Vec3
  mipmap_enabled : Bool

/-- The body of `transform_instance::update`: parse a settings snapshot
into `TransformParams` (percent divided by 100, degrees times π/180,
`scale.z` fixed at 1, `shear.z` fixed at 0, the rotation order cast from
`int64_t` to `uint32_t`). -/
def parseParams (s : Settings) : TransformParams :=
  { camera_orthographic := getInt s "Camera.Mode" == 0
    camera_fov := ((getData s "Camera.FieldOfView" : ℚ) : ℝ)
    position := ⟨((getData s "Position.X" / 100 : ℚ) : ℝ),
                 ((getData s "Position.Y" / 100 : ℚ) : ℝ),
                 ((getData s "Position.Z" / 100 : ℚ) : ℝ)⟩
    scale := ⟨((getData s "Scale.X" / 100 : ℚ) : ℝ),
              ((getData s "Scale.Y" / 100 : ℚ) : ℝ), 1⟩
    rotation_order := toU32 (getInt s "Rotation.Order")
    rotation := ⟨((getData s "Rotation.X" / 180 : ℚ) : ℝ) * Real.pi,
                 ((getData s "Rotation.Y" / 180 : ℚ) : ℝ) * Real.pi,
                 ((getData s "Rotation.Z" / 180 : ℚ) : ℝ) * Real.pi⟩
    shear := ⟨((getData s "Shear.X" / 100 : ℚ) : ℝ),
              ((getData s "Shear.Y" / 100 : ℚ) : ℝ), 0⟩
    mipmap_enabled := getBoolData s "Mipmapping" }

/-! ## Mesh builder (`transform_instance::video_tick`) -/

/-- A vertex of the quad: color (always opaque white), UV, position. -/
structure Vertex where
  color : Nat
  uv : ℝ × ℝ
  position : Vec3

/-- The zero-extent clamp at the start of the mesh rebuild
(`if (width == 0) width = 1;` and likewise for height). -/
def effectiveExtent (w h : Nat) : Nat × Nat :=
  (if w = 0 then 1 else w, if h = 0 then 1 else h)

/-- The aspect ratio used for the mesh: `width / height`, forced to 1 in
orthographic mode, computed on the clamped extent. -/
def aspectRatioX (ortho : Bool) (w h : Nat) : ℝ :=
  if ortho then 1
  else (((effectiveExtent w h).1 : ℝ) / ((effectiveExtent w h).2 : ℝ))

/-- The rotation/translation matrix of the mesh rebuild: the six-way
switch over `_rotation_order` (each case chaining three
`matrix4_rotate_aa4f` about the unit axes in the listed order; values
without a case leave the identity), followed by `matrix4_translate3f`. -/
def meshMatrix (order : Nat) (rot pos : Vec3) : Mat4 :=
  let i0 := Mat4.one
  let r :=
    match order with
    | 0 =>  -- XYZ
      matrix4_rotate_aa4f (matrix4_rotate_aa4f (matrix4_rotate_aa4f i0 1 0 0 rot.x) 0 1 0 rot.y) 0 0 1 rot.z
    | 1 =>  -- XZY
      matrix4_rotate_aa4f (matrix4_rotate_aa4f (matrix4_rotate_aa4f i0 1 0 0 rot.x) 0 0 1 rot.z) 0 1 0 rot.y
    | 2 =>  -- YXZ
      matrix4_rotate_aa4f (matrix4_rotate_aa4f (matrix4_rotate_aa4f i0 0 1 0 rot.y) 1 0 0 rot.x) 0 0 1 rot.z
    | 3 =>  -- YZX
      matrix4_rotate_aa4f (matrix4_rotate_aa4f (matrix4_rotate_aa4f i0 0 1 0 rot.y) 0 0 1 rot.z) 1 0 0 rot.x
    | 4 =>  -- ZXY
      matrix4_rotate_aa4f (matrix4_rotate_aa4f (matrix4_rotate_aa4f i0 0 0 1 rot.z) 1 0 0 rot.x) 0 1 0 rot.y
    | 5 =>  -- ZYX
      matrix4_rotate_aa4f (matrix4_rotate_aa4f (matrix4_rotate_aa4f i0 0 0 1 rot.z) 0 1 0 rot.y) 1 0 0 rot.x
    | _ => i0  -- no default case in the switch: the identity is left in place
  matrix4_translate3f r pos.x pos.y pos.z

/-- The four untransformed corners with their UVs, in vertex-buffer order,
with `p_x = aspect * scale.x` and `p_y = 1 * scale.y` (lines 294–325). -/
def meshBase (p : TransformParams) (aspect : ℝ) : List ((ℝ × ℝ) × Vec3) :=
  let px := aspect * p.scale.x
  let py := 1 * p.scale.y
  [((0, 0), ⟨-px + p.shear.x, -py - p.shear.y, 0⟩),
   ((1, 0), ⟨px + p.shear.x, -py + p.shear.y, 0⟩),
   ((0, 1), ⟨-px - p.shear.x, py - p.shear.y, 0⟩),
   ((1, 1), ⟨px - p.shear.x, py + p.shear.y, 0⟩)]

/-- The full mesh rebuild: each corner transformed by the composed
matrix, color always `0xFFFFFFFF`. -/
def buildMesh (p : TransformParams) (w h : Nat) : List Vertex :=
  let M := meshMatrix p.rotation_order p.rotation p.position
  (meshBase p (aspectRatioX p.camera_orthographic w h)).map
    (fun c => { color := 0xFFFFFFFF, uv := c.1, position := vec3_transform c.2 M })

/-! ## Instance state and scheduling tick -/

/-- The mutable fields of `transform_instance` the claims are about. -/
structure InstState where
  params : TransformParams
  source_size : Nat × Nat
  update_mesh : Bool
  mesh : List Vertex
  cache_rendered : Bool
  mipmap_rendered : Bool
  source_rendered : Bool
  cache_texture : Option Unit
  mipmap_texture : Option (Nat × Nat)
  source_texture : Option Unit

/-- `transform_instance::update`: overwrite the parameter state from the
snapshot and unconditionally mark the mesh dirty. -/
def update (st : InstState) (s : Settings) : InstState :=
  { st with params := parseParams s, update_mesh := true }

/-- `transform_instance::video_tick`: sample the target extent (0 when no
target), force a mesh rebuild on a per-axis size mismatch, rebuild the mesh
when dirty (storing the raw extent, clamping zero axes for the geometry),
and clear the three per-tick "rendered" flags. -/
def video_tick (st : InstState) (target : Option (Nat × Nat)) : InstState :=
  let w := (target.getD (0, 0)).1
  let h := (target.getD (0, 0)).2
  let um :=
    if w ≠ st.source_size.1 then true
    else if h ≠ st.source_size.2 then true
    else st.update_mesh
  let st1 :=
    if um then
      { st with
          source_size := (w, h)
          mesh := buildMesh st.params w h
          update_mesh := false }
    else st
  { st1 with
      cache_rendered := false
      mipmap_rendered := false
      source_rendered := false }

/-! ## Cache sizing policy (`video_render`, lines 356–376) -/

/-- Bounded-fuel helper for the base-2 ceiling logarithm. -/
def clog2Go : Nat → Nat → Nat
  | 0, _ => 0
  | fuel + 1, n => if n ≤ 1 then 0 else 1 + clog2Go fuel ((n + 1) / 2)

/-- Modelled from the spec:
`streamfx::util::math::get_power_of_two_exponent_ceil` (not in src/), the
exponent of the next power of two: the least `e` with `n ≤ 2 ^ e`. -/
def clog2 (n : Nat) : Nat := clog2Go n n

/-- `std::clamp` on naturals. -/
def stdClamp (v lo hi : Nat) : Nat :=
  if v < lo then lo else if hi < v then hi else v

/-- The capture resolution (lines 356–376): native extent, unless
mipmapping is enabled, in which case each axis snaps up to a power of two
clamped to [1, 16384] and the non-dominant axis is then recomputed from the
aspect ratio.  The `double` arithmetic is modelled exactly
(see the header comment): `aspect > 1.0` is `h < w`, and
`uint64_t(cache_width * aspect2)` is `cw * h / w` in ℕ. -/
def cacheSize (mipmap : Bool) (w h : Nat) : Nat × Nat :=
  if !mipmap then (w, h)
  else
    let cw := stdClamp (2 ^ clog2 w) 1 16384
    let ch := stdClamp (2 ^ clog2 h) 1 16384
    if h < w then (cw, stdClamp (2 ^ clog2 (cw * h / w)) 1 16384)
    else if w < h then (stdClamp (2 ^ clog2 (ch * w / h)) 1 16384, ch)
    else (cw, ch)

/-- The least power of two at least `q` (powers of two are integers, so
this is the power-of-two ceiling of `⌈q⌉`). -/
def potCeilQ (q : ℚ) : Nat := 2 ^ clog2 (Int.toNat ⌈q⌉)

/-- The cache sizing as claim C2 words it: the recomputed axis is the
clamped power-of-two ceiling of the exact quotient
`(snapped width) / (w/h)` (no integer truncation before the ceiling). -/
def specCacheSizeClaim (mipmap : Bool) (w h : Nat) : Nat × Nat :=
  if !mipmap then (w, h)
  else
    let cw := stdClamp (2 ^ clog2 w) 1 16384
    let ch := stdClamp (2 ^ clog2 h) 1 16384
    let aspect : ℚ := (w : ℚ) / (h : ℚ)
    if 1 < aspect then (cw, stdClamp (potCeilQ ((cw : ℚ) / aspect)) 1 16384)
    else if aspect < 1 then (stdClamp (potCeilQ ((ch : ℚ) * aspect)) 1 16384, ch)
    else (cw, ch)

/-- The cache sizing as amended: identical to the claim except that the
quotient is truncated to an integer before the power-of-two ceiling is
taken, as the code does. -/
def specCacheSizeAmended (mipmap : Bool) (w h : Nat) : Nat × Nat :=
  if !mipmap then (w, h)
  else
    let cw := stdClamp (2 ^ clog2 w) 1 16384
    let ch := stdClamp (2 ^ clog2 h) 1 16384
    let aspect : ℚ := (w : ℚ) / (h : ℚ)
    if 1 < aspect then (cw, stdClamp (2 ^ clog2 ⌊(cw : ℚ) / aspect⌋₊) 1 16384)
    else if aspect < 1 then (stdClamp (2 ^ clog2 ⌊(ch : ℚ) * aspect⌋₊) 1 16384, ch)
    else (cw, ch)

/-! ## Render pipeline (`transform_instance::video_render`) -/

/-- One pipeline outcome: either the filter is skipped for this frame
(`obs_source_skip_video_filter`) or the full pass ran. -/
inductive Outcome where
  | skip
  | rendered
  deriving DecidableEq

/-- The host-side environment of one `video_render` call: presence of
parent and target, target extent, whether `obs_source_process_filter_begin`
succeeds, and the texture handles the two render targets yield. -/
structure RenderEnv where
  parent : Bool
  target : Bool
  base_width : Nat
  base_height : Nat
  begin_ok : Bool
  cache_tex : Option Unit
  source_tex : Option Unit

/-- `transform_instance::video_render` at the control-flow level: GPU
drawing is opaque, but every guard, early skip and state write is kept in
source order (lines 336–502). -/
def video_render (env : RenderEnv) (st : InstState) : Outcome × InstState :=
  if env.base_width == 0 || env.base_height == 0 || !env.parent || !env.target then
    (Outcome.skip, st)
  else
    let cache := cacheSize st.params.mipmap_enabled env.base_width env.base_height
    -- Capture stage: gated on the per-tick flag; a failed filter-begin
    -- aborts before the flag is set.
    if !st.cache_rendered && !env.begin_ok then
      (Outcome.skip, st)
    else
      let st1 := if st.cache_rendered then st else { st with cache_rendered := true }
      let st2 := { st1 with cache_texture := env.cache_tex }
      if st2.cache_texture.isNone then
        (Outcome.skip, st2)
      else
        -- Mipmap stage: reallocate on a size mismatch, then rebuild.
        let st3 :=
          if st2.params.mipmap_enabled then
            let mt :=
              match st2.mipmap_texture with
              | none => some cache
              | some d => if d == cache then some d else some cache
            { st2 with mipmap_texture := mt, mipmap_rendered := true }
          else st2
        if st3.params.mipmap_enabled && st3.mipmap_texture.isNone then
          (Outcome.skip, st3)
        else
          -- Transform and composite stages.
          let st4 := { st3 with source_texture := env.source_tex }
          if st4.source_texture.isNone then
            (Outcome.skip, st4)
          else
            (Outcome.rendered, st4)

/-! ## Concrete sample data used by witnesses and counterexamples -/

/-- The settings snapshot of C3's end-to-end example: position (0,0,0),
rotation (0,0,0), scale (100,100) percent, shear (0,0), orthographic. -/
def exampleSettings : Settings :=
  [("Camera.Mode", 0), ("Position.X", 0), ("Position.Y", 0), ("Position.Z", 0),
   ("Rotation.X", 0), ("Rotation.Y", 0), ("Rotation.Z", 0),
   ("Scale.X", 100), ("Scale.Y", 100), ("Shear.X", 0), ("Shear.Y", 0)]

/-- The parameter state parsed from `exampleSettings`. -/
def exampleParams : TransformParams := parseParams exampleSettings

/-- A plain parameter state used as a concrete instance by witnesses. -/
def sampleParams : TransformParams :=
  { camera_orthographic := true
    camera_fov := 90
    position := ⟨0, 0, 0⟩
    scale := ⟨1, 1, 1⟩
    rotation_order := 4
    rotation := ⟨0, 0, 0⟩
    shear := ⟨0, 0, 0⟩
    mipmap_enabled := false }

/-- A freshly ticked instance state used as a concrete instance. -/
def sampleState : InstState :=
  { params := sampleParams
    source_size := (0, 0)
    update_mesh := false
    mesh := []
    cache_rendered := false
    mipmap_rendered := false
    source_rendered := false
    cache_texture := none
    mipmap_texture := none
    source_texture := none }

/-- A render environment where the upstream capture begins successfully
but the capture render target yields no texture handle. -/
def noTextureEnv : RenderEnv :=
  { parent := true
    target := true
    base_width := 100
    base_height := 100
    begin_ok := true
    cache_tex := none
    source_tex := none }

/-- A render environment where `obs_source_process_filter_begin` fails. -/
def beginFailsEnv : RenderEnv :=
  { parent := true
    target := true
    base_width := 4
    base_height := 4
    begin_ok := false
    cache_tex := some ()
    source_tex := some () }

end

/-! ## Helper lemmas -/

theorem Mat3.one_mul (B : Mat3) : Mat3.one.mul B = B := by
  cases B
  simp [Mat3.mul, Mat3.one]

theorem Mat3.mul_one (A : Mat3) : A.mul Mat3.one = A := by
  cases A
  simp [Mat3.mul, Mat3.one]

theorem vecMulMat_zero (M : Mat3) : vecMulMat ⟨0, 0, 0⟩ M = ⟨0, 0, 0⟩ := by
  simp [vecMulMat]

theorem vecMulMat_one (v : Vec3) : vecMulMat v Mat3.one = v := by
  cases v
  simp [vecMulMat, Mat3.one]

theorem vecAdd_zero_zero : vecAdd ⟨0, 0, 0⟩ ⟨0, 0, 0⟩ = (⟨0, 0, 0⟩ : Vec3) := by
  simp [vecAdd]

/-- Rotating a matrix with no translation row just multiplies the linear
parts. -/
theorem rotate_aa4f_pure (L : Mat3) (ax ay az θ : ℝ) :
    matrix4_rotate_aa4f ⟨L, ⟨0, 0, 0⟩⟩ ax ay az θ
      = ⟨L.mul (rotAA ax ay az θ), ⟨0, 0, 0⟩⟩ := by
  simp [matrix4_rotate_aa4f, Mat4.mul, vecMulMat_zero, vecAdd_zero_zero]

/-- Translating a matrix with no translation row installs the translation. -/
theorem translate3f_pure (L : Mat3) (x y z : ℝ) :
    matrix4_translate3f ⟨L, ⟨0, 0, 0⟩⟩ x y z = ⟨L, ⟨x, y, z⟩⟩ := by
  simp [matrix4_translate3f, Mat4.mul, Mat3.mul_one, vecMulMat_zero, vecAdd]

/-- The axis-angle rotation about the unit X axis is the closed-form X
rotation. -/
theorem rotAA_unit_x (θ : ℝ) : rotAA 1 0 0 θ = RxM θ := by
  simp only [rotAA, RxM, Mat3.mk.injEq]
  norm_num

/-- The axis-angle rotation about the unit Y axis is the closed-form Y
rotation. -/
theorem rotAA_unit_y (θ : ℝ) : rotAA 0 1 0 θ = RyM θ := by
  simp only [rotAA, RyM, Mat3.mk.injEq]
  norm_num

/-- The axis-angle rotation about the unit Z axis is the closed-form Z
rotation. -/
theorem rotAA_unit_z (θ : ℝ) : rotAA 0 0 1 θ = RzM θ := by
  simp only [rotAA, RzM, Mat3.mk.injEq]
  norm_num

theorem meshMatrix_order0 (rot pos : Vec3) :
    meshMatrix 0 rot pos = ⟨((RxM rot.x).mul (RyM rot.y)).mul (RzM rot.z), pos⟩ := by
  have h : meshMatrix 0 rot pos
      = matrix4_translate3f (matrix4_rotate_aa4f (matrix4_rotate_aa4f
          (matrix4_rotate_aa4f ⟨Mat3.one, ⟨0, 0, 0⟩⟩ 1 0 0 rot.x) 0 1 0 rot.y) 0 0 1 rot.z)
          pos.x pos.y pos.z := rfl
  rw [h, rotate_aa4f_pure, Mat3.one_mul, rotate_aa4f_pure, rotate_aa4f_pure,
    translate3f_pure, rotAA_unit_x, rotAA_unit_y, rotAA_unit_z]

theorem meshMatrix_order1 (rot pos : Vec3) :
    meshMatrix 1 rot pos = ⟨((RxM rot.x).mul (RzM rot.z)).mul (RyM rot.y), pos⟩ := by
  have h : meshMatrix 1 rot pos
      = matrix4_translate3f (matrix4_rotate_aa4f (matrix4_rotate_aa4f
          (matrix4_rotate_aa4f ⟨Mat3.one, ⟨0, 0, 0⟩⟩ 1 0 0 rot.x) 0 0 1 rot.z) 0 1 0 rot.y)
          pos.x pos.y pos.z := rfl
  rw [h, rotate_aa4f_pure, Mat3.one_mul, rotate_aa4f_pure, rotate_aa4f_pure,
    translate3f_pure, rotAA_unit_x, rotAA_unit_y, rotAA_unit_z]

theorem meshMatrix_order2 (rot pos : Vec3) :
    meshMatrix 2 rot pos = ⟨((RyM rot.y).mul (RxM rot.x)).mul (RzM rot.z), pos⟩ := by
  have h : meshMatrix 2 rot pos
      = matrix4_translate3f (matrix4_rotate_aa4f (matrix4_rotate_aa4f
          (matrix4_rotate_aa4f ⟨Mat3.one, ⟨0, 0, 0⟩⟩ 0 1 0 rot.y) 1 0 0 rot.x) 0 0 1 rot.z)
          pos.x pos.y pos.z := rfl
  rw [h, rotate_aa4f_pure, Mat3.one_mul, rotate_aa4f_pure, rotate_aa4f_pure,
    translate3f_pure, rotAA_unit_x, rotAA_unit_y, rotAA_unit_z]

theorem meshMatrix_order3 (rot pos : Vec3) :
    meshMatrix 3 rot pos = ⟨((RyM rot.y).mul (RzM rot.z)).mul (RxM rot.x), pos⟩ := by
  have h : meshMatrix 3 rot pos
      = matrix4_translate3f (matrix4_rotate_aa4f (matrix4_rotate_aa4f
          (matrix4_rotate_aa4f ⟨Mat3.one, ⟨0, 0, 0⟩⟩ 0 1 0 rot.y) 0 0 1 rot.z) 1 0 0 rot.x)
          pos.x pos.y pos.z := rfl
  rw [h, rotate_aa4f_pure, Mat3.one_mul, rotate_aa4f_pure, rotate_aa4f_pure,
    translate3f_pure, rotAA_unit_x, rotAA_unit_y, rotAA_unit_z]

theorem meshMatrix_order4 (rot pos : Vec3) :
    meshMatrix 4 rot pos = ⟨((RzM rot.z).mul (RxM rot.x)).mul (RyM rot.y), pos⟩ := by
  have h : meshMatrix 4 rot pos
      = matrix4_translate3f (matrix4_rotate_aa4f (matrix4_rotate_aa4f
          (matrix4_rotate_aa4f ⟨Mat3.one, ⟨0, 0, 0⟩⟩ 0 0 1 rot.z) 1 0 0 rot.x) 0 1 0 rot.y)
          pos.x pos.y pos.z := rfl
  rw [h, rotate_aa4f_pure, Mat3.one_mul, rotate_aa4f_pure, rotate_aa4f_pure,
    translate3f_pure, rotAA_unit_x, rotAA_unit_y, rotAA_unit_z]

theorem meshMatrix_order5 (rot pos : Vec3) :
    meshMatrix 5 rot pos = ⟨((RzM rot.z).mul (RyM rot.y)).mul (RxM rot.x), pos⟩ := by
  have h : meshMatrix 5 rot pos
      = matrix4_translate3f (matrix4_rotate_aa4f (matrix4_rotate_aa4f
          (matrix4_rotate_aa4f ⟨Mat3.one, ⟨0, 0, 0⟩⟩ 0 0 1 rot.z) 0 1 0 rot.y) 1 0 0 rot.x)
          pos.x pos.y pos.z := rfl
  rw [h, rotate_aa4f_pure, Mat3.one_mul, rotate_aa4f_pure, rotate_aa4f_pure,
    translate3f_pure, rotAA_unit_x, rotAA_unit_y, rotAA_unit_z]

/-- `video_tick` unconditionally clears all three per-tick flags. -/
theorem video_tick_clears (st : InstState) (t : Option (Nat × Nat)) :
    (video_tick st t).cache_rendered = false := by
  simp [video_tick]

/-! ## Theorems -/

/-- C1: the claim says `migrate` copies each legacy key's value to the
current key without overwriting user values there; the code does the
reverse.  Evaluating `migrate` on a snapshot whose (current) "Camera.Mode"
key holds 1 (Perspective), at version 0.10.0.0: the value is moved to the
legacy key "Filter.Transform.Camera", the current key is unset and then
forced to 0 (Orthographic), so an `update` after migration sees an
orthographic camera although the user chose perspective. -/
theorem migrate_moves_current_keys_to_legacy :
    findVal (migrate [("Camera.Mode", (1 : ℚ))] (makeVersion 0 10 0 0)) "Camera.Mode"
      = some 0 ∧
    findVal (migrate [("Camera.Mode", (1 : ℚ))] (makeVersion 0 10 0 0)) "Filter.Transform.Camera"
      = some 1 ∧
    (parseParams (migrate [("Camera.Mode", (1 : ℚ))] (makeVersion 0 10 0 0))).camera_orthographic
      = true ∧
    (parseParams [("Camera.Mode", (1 : ℚ))]).camera_orthographic = false := by
  refine ⟨by decide, by decide, by decide, by decide⟩

/-- C8: `update` is idempotent on the whole instance state — the parameter
state is recomputed wholesale from the snapshot — and it marks the mesh
dirty on every call, including the second. -/
theorem update_idempotent_marks_dirty (st : InstState) (s : Settings) :
    update (update st s) s = update st s ∧
    (update st s).update_mesh = true ∧
    (update (update st s) s).update_mesh = true ∧
    (update (update st s) s).params = (update st s).params :=
  ⟨rfl, rfl, rfl, rfl⟩

/-- C2 counterexample: at width 5, height 3 with mipmapping enabled the
code snaps the width to 8 and recomputes the height from the truncated
quotient `⌊8 / (5/3)⌋ = 4`, giving height 4; the claim's formula — the
power-of-two ceiling of the exact quotient `8 / (5/3) = 4.8` — gives 8. -/
theorem cacheSize_exact_quotient_counterexample :
    cacheSize true 5 3 = (8, 4) ∧ specCacheSizeClaim true 5 3 = (8, 8) := by
  constructor
  · decide
  · have ha : (1 : ℚ) < ((5 : ℕ) : ℚ) / ((3 : ℕ) : ℚ) := by norm_num
    have hcw : stdClamp (2 ^ clog2 5) 1 16384 = 8 := by decide
    have hceil : (⌈((8 : ℕ) : ℚ) / (((5 : ℕ) : ℚ) / ((3 : ℕ) : ℚ))⌉).toNat = 5 := by
      have h24 : ((8 : ℕ) : ℚ) / (((5 : ℕ) : ℚ) / ((3 : ℕ) : ℚ)) = 24 / 5 := by norm_num
      have h5 : (⌈(24 : ℚ) / 5⌉ : Int) = 5 := by
        rw [Int.ceil_eq_iff]
        constructor <;> norm_num
      rw [h24, h5]
      rfl
    simp only [specCacheSizeClaim, Bool.not_true, Bool.false_eq_true, if_false, if_pos ha,
      potCeilQ, hcw, hceil]

/-- C2 (amended): with mipmapping disabled the capture resolution is the
native extent; with it enabled, both axes snap up to clamped powers of two
and the non-dominant axis is recomputed from the aspect ratio, the
quotient being truncated to an integer before its power-of-two ceiling is
taken; 1920×1080 yields (2048, 2048) as the claim states. -/
theorem cacheSize_snapping_spec (w h : Nat) (hw : 0 < w) (hh : 0 < h) :
    cacheSize false w h = (w, h) ∧
    cacheSize true w h = specCacheSizeAmended true w h ∧
    cacheSize true 1920 1080 = (2048, 2048) := by
  refine ⟨rfl, ?_, by decide⟩
  have hq : (0 : ℚ) < (h : ℚ) := by exact_mod_cast hh
  have h1 : (1 < (w : ℚ) / (h : ℚ)) ↔ h < w := by
    rw [one_lt_div hq]
    exact_mod_cast Iff.rfl
  have h2 : ((w : ℚ) / (h : ℚ) < 1) ↔ w < h := by
    rw [div_lt_one hq]
    exact_mod_cast Iff.rfl
  have hf1 : ∀ cw : Nat, (⌊(cw : ℚ) / ((w : ℚ) / (h : ℚ))⌋₊ : ℕ) = cw * h / w := by
    intro cw
    rw [div_div_eq_mul_div, show ((cw : ℚ) * h) = ((cw * h : ℕ) : ℚ) by push_cast; ring]
    exact Nat.floor_div_eq_div (cw * h) w
  have hf2 : ∀ ch : Nat, (⌊(ch : ℚ) * ((w : ℚ) / (h : ℚ))⌋₊ : ℕ) = ch * w / h := by
    intro ch
    rw [mul_div_assoc', show ((ch : ℚ) * w) = ((ch * w : ℕ) : ℚ) by push_cast; ring]
    exact Nat.floor_div_eq_div (ch * w) h
  simp only [cacheSize, specCacheSizeAmended, Bool.not_true, Bool.false_eq_true, if_false,
    h1, h2, hf1, hf2]

/-- Witness for C2 (amended) at the claim's own 1920×1080 example. -/
theorem cacheSize_snapping_spec_witness :
    0 < 1920 ∧ 0 < 1080 ∧
    (cacheSize false 1920 1080 = (1920, 1080) ∧
      cacheSize true 1920 1080 = specCacheSizeAmended true 1920 1080 ∧
      cacheSize true 1920 1080 = (2048, 2048)) :=
  ⟨by decide, by decide, cacheSize_snapping_spec 1920 1080 (by decide) (by decide)⟩

/-- C4: for each of the six rotation-order enum values the mesh matrix is
the composition of the three single-axis rotations in exactly the axis
sequence the enum names (row convention: the left factor is applied
first), followed by the translation by `position`; consequently
transforming any corner matches the closed-form matrix product. -/
theorem rotation_order_matches_enum (rot pos v : Vec3) :
    (meshMatrix 0 rot pos = ⟨((RxM rot.x).mul (RyM rot.y)).mul (RzM rot.z), pos⟩ ∧
      vec3_transform v (meshMatrix 0 rot pos)
        = vecAdd (vecMulMat v (((RxM rot.x).mul (RyM rot.y)).mul (RzM rot.z))) pos) ∧
    (meshMatrix 1 rot pos = ⟨((RxM rot.x).mul (RzM rot.z)).mul (RyM rot.y), pos⟩ ∧
      vec3_transform v (meshMatrix 1 rot pos)
        = vecAdd (vecMulMat v (((RxM rot.x).mul (RzM rot.z)).mul (RyM rot.y))) pos) ∧
    (meshMatrix 2 rot pos = ⟨((RyM rot.y).mul (RxM rot.x)).mul (RzM rot.z), pos⟩ ∧
      vec3_transform v (meshMatrix 2 rot pos)
        = vecAdd (vecMulMat v (((RyM rot.y).mul (RxM rot.x)).mul (RzM rot.z))) pos) ∧
    (meshMatrix 3 rot pos = ⟨((RyM rot.y).mul (RzM rot.z)).mul (RxM rot.x), pos⟩ ∧
      vec3_transform v (meshMatrix 3 rot pos)
        = vecAdd (vecMulMat v (((RyM rot.y).mul (RzM rot.z)).mul (RxM rot.x))) pos) ∧
    (meshMatrix 4 rot pos = ⟨((RzM rot.z).mul (RxM rot.x)).mul (RyM rot.y), pos⟩ ∧
      vec3_transform v (meshMatrix 4 rot pos)
        = vecAdd (vecMulMat v (((RzM rot.z).mul (RxM rot.x)).mul (RyM rot.y))) pos) ∧
    (meshMatrix 5 rot pos = ⟨((RzM rot.z).mul (RyM rot.y)).mul (RxM rot.x), pos⟩ ∧
      vec3_transform v (meshMatrix 5 rot pos)
        = vecAdd (vecMulMat v (((RzM rot.z).mul (RyM rot.y)).mul (RxM rot.x))) pos) := by
  refine ⟨⟨meshMatrix_order0 rot pos, ?_⟩, ⟨meshMatrix_order1 rot pos, ?_⟩,
    ⟨meshMatrix_order2 rot pos, ?_⟩, ⟨meshMatrix_order3 rot pos, ?_⟩,
    ⟨meshMatrix_order4 rot pos, ?_⟩, ⟨meshMatrix_order5 rot pos, ?_⟩⟩
  · rw [meshMatrix_order0]; rfl
  · rw [meshMatrix_order1]; rfl
  · rw [meshMatrix_order2]; rfl
  · rw [meshMatrix_order3]; rfl
  · rw [meshMatrix_order4]; rfl
  · rw [meshMatrix_order5]; rfl

/-- C10: a rotation-order value outside 0–5 falls through the switch
without any rotation: the mesh matrix is the identity followed by the
translation, so corners are merely translated. -/
theorem invalid_rotation_order_only_translates (o : Nat) (rot pos v : Vec3)
    (ho : 6 ≤ o) :
    meshMatrix o rot pos = ⟨Mat3.one, pos⟩ ∧
    vec3_transform v (meshMatrix o rot pos) = vecAdd v pos := by
  obtain ⟨k, rfl⟩ : ∃ k, o = k + 6 := ⟨o - 6, by omega⟩
  have h : meshMatrix (k + 6) rot pos
      = matrix4_translate3f ⟨Mat3.one, ⟨0, 0, 0⟩⟩ pos.x pos.y pos.z := rfl
  have hm : meshMatrix (k + 6) rot pos = ⟨Mat3.one, pos⟩ := by
    rw [h, translate3f_pure]
  refine ⟨hm, ?_⟩
  rw [hm]
  show vecAdd (vecMulMat v Mat3.one) pos = vecAdd v pos
  rw [vecMulMat_one]

/-- Witness for C10 at the concrete out-of-range order 7. -/
theorem invalid_rotation_order_only_translates_witness :
    6 ≤ 7 ∧
    (meshMatrix 7 ⟨1, 2, 3⟩ ⟨4, 5, 6⟩ = ⟨Mat3.one, ⟨4, 5, 6⟩⟩ ∧
      vec3_transform ⟨9, 8, 7⟩ (meshMatrix 7 ⟨1, 2, 3⟩ ⟨4, 5, 6⟩)
        = vecAdd ⟨9, 8, 7⟩ ⟨4, 5, 6⟩) :=
  ⟨by norm_num,
   invalid_rotation_order_only_translates 7 ⟨1, 2, 3⟩ ⟨4, 5, 6⟩ ⟨9, 8, 7⟩ (by norm_num)⟩

/-- C3: the four untransformed corners are at
`(±(aspect·scale.x) ± shear.x, ∓scale.y ∓ shear.y, 0)` in vertex-buffer
order with UVs (0,0), (1,0), (0,1), (1,1); the aspect is width/height in
perspective mode and forced to 1 in orthographic mode; the end-to-end
orthographic example (scale 100 %, shear 0, source 800×600) puts the
corners at (±1, ∓1, 0). -/
theorem mesh_corners_formula (p : TransformParams) (w h : Nat)
    (hw : 0 < w) (hh : 0 < h) :
    aspectRatioX p.camera_orthographic w h
      = (if p.camera_orthographic then 1 else (w : ℝ) / (h : ℝ)) ∧
    meshBase p (aspectRatioX p.camera_orthographic w h)
      = [((0, 0), ⟨-(aspectRatioX p.camera_orthographic w h * p.scale.x) + p.shear.x,
                   -p.scale.y - p.shear.y, 0⟩),
         ((1, 0), ⟨aspectRatioX p.camera_orthographic w h * p.scale.x + p.shear.x,
                   -p.scale.y + p.shear.y, 0⟩),
         ((0, 1), ⟨-(aspectRatioX p.camera_orthographic w h * p.scale.x) - p.shear.x,
                   p.scale.y - p.shear.y, 0⟩),
         ((1, 1), ⟨aspectRatioX p.camera_orthographic w h * p.scale.x - p.shear.x,
                   p.scale.y + p.shear.y, 0⟩)] ∧
    meshBase exampleParams (aspectRatioX exampleParams.camera_orthographic 800 600)
      = [((0, 0), ⟨-1, -1, 0⟩), ((1, 0), ⟨1, -1, 0⟩),
         ((0, 1), ⟨-1, 1, 0⟩), ((1, 1), ⟨1, 1, 0⟩)] := by
  have hw0 : w ≠ 0 := Nat.pos_iff_ne_zero.mp hw
  have hh0 : h ≠ 0 := Nat.pos_iff_ne_zero.mp hh
  refine ⟨by simp [aspectRatioX, effectiveExtent, hw0, hh0], by simp [meshBase], ?_⟩
  have ho : exampleParams.camera_orthographic = true := by decide
  have hsx : exampleParams.scale.x = 1 := by
    have h100 : getData exampleSettings "Scale.X" = 100 := by decide
    simp [exampleParams, parseParams, h100]
  have hsy : exampleParams.scale.y = 1 := by
    have h100 : getData exampleSettings "Scale.Y" = 100 := by decide
    simp [exampleParams, parseParams, h100]
  have hshx : exampleParams.shear.x = 0 := by
    have h0 : getData exampleSettings "Shear.X" = 0 := by decide
    simp [exampleParams, parseParams, h0]
  have hshy : exampleParams.shear.y = 0 := by
    have h0 : getData exampleSettings "Shear.Y" = 0 := by decide
    simp [exampleParams, parseParams, h0]
  simp [meshBase, aspectRatioX, ho, hsx, hsy, hshx, hshy]

/-- Witness for C3 at a concrete parameter state and the 800×600 extent. -/
theorem mesh_corners_formula_witness :
    0 < 800 ∧ 0 < 600 ∧
    (aspectRatioX sampleParams.camera_orthographic 800 600
        = (if sampleParams.camera_orthographic then 1 else (800 : ℝ) / (600 : ℝ)) ∧
      meshBase sampleParams (aspectRatioX sampleParams.camera_orthographic 800 600)
        = [((0, 0), ⟨-(aspectRatioX sampleParams.camera_orthographic 800 600 * sampleParams.scale.x) + sampleParams.shear.x,
                     -sampleParams.scale.y - sampleParams.shear.y, 0⟩),
           ((1, 0), ⟨aspectRatioX sampleParams.camera_orthographic 800 600 * sampleParams.scale.x + sampleParams.shear.x,
                     -sampleParams.scale.y + sampleParams.shear.y, 0⟩),
           ((0, 1), ⟨-(aspectRatioX sampleParams.camera_orthographic 800 600 * sampleParams.scale.x) - sampleParams.shear.x,
                     sampleParams.scale.y - sampleParams.shear.y, 0⟩),
           ((1, 1), ⟨aspectRatioX sampleParams.camera_orthographic 800 600 * sampleParams.scale.x - sampleParams.shear.x,
                     sampleParams.scale.y + sampleParams.shear.y, 0⟩)] ∧
      meshBase exampleParams (aspectRatioX exampleParams.camera_orthographic 800 600)
        = [((0, 0), ⟨-1, -1, 0⟩), ((1, 0), ⟨1, -1, 0⟩),
           ((0, 1), ⟨-1, 1, 0⟩), ((1, 1), ⟨1, 1, 0⟩)]) :=
  ⟨by decide, by decide, mesh_corners_formula sampleParams 800 600 (by decide) (by decide)⟩

/-- C5 counterexample: with a valid target, a successful filter-begin but
no texture handle from the capture render target, `video_render` signals
skip, yet the captured-this-tick flag HAS been set (the code marks the
capture before fetching the texture, as spec §4.4 describes), refuting the
claim that the flag is not set in this failure mode. -/
theorem video_render_flag_set_despite_missing_texture :
    (video_render noTextureEnv sampleState).1 = Outcome.skip ∧
    ((video_render noTextureEnv sampleState).2).cache_rendered = true ∧
    sampleState.cache_rendered = false :=
  ⟨rfl, rfl, rfl⟩

/-- C5 (amended): with a valid parent/target and nonzero extent, if either
the filter-begin fails before the capture flag is set, or the capture
yields no texture handle, `video_render` signals skip immediately; the
parameters, stored source size and mesh are untouched; the captured flag
ends up set exactly when the capture step itself succeeded
(`st.cache_rendered || env.begin_ok`); and the next `video_tick` clears
the flag so the capture is retried. -/
theorem video_render_capture_failure_skips (env : RenderEnv) (st : InstState)
    (t : Option (Nat × Nat))
    (hw : env.base_width ≠ 0) (hh : env.base_height ≠ 0)
    (hp : env.parent = true) (htg : env.target = true)
    (hcase : (st.cache_rendered = false ∧ env.begin_ok = false) ∨
             (env.cache_tex = none ∧ (st.cache_rendered = true ∨ env.begin_ok = true))) :
    (video_render env st).1 = Outcome.skip ∧
    ((video_render env st).2).params = st.params ∧
    ((video_render env st).2).source_size = st.source_size ∧
    ((video_render env st).2).mesh = st.mesh ∧
    ((video_render env st).2).update_mesh = st.update_mesh ∧
    ((video_render env st).2).cache_rendered = (st.cache_rendered || env.begin_ok) ∧
    (video_tick ((video_render env st).2) t).cache_rendered = false := by
  have hbw : (env.base_width == 0) = false := beq_eq_false_iff_ne.mpr hw
  have hbh : (env.base_height == 0) = false := beq_eq_false_iff_ne.mpr hh
  rcases hcase with ⟨hc, hb⟩ | ⟨hct, hflag⟩
  · have hvr : video_render env st = (Outcome.skip, st) := by
      simp [video_render, hbw, hbh, hp, htg, hc, hb]
    rw [hvr]
    simp [hc, hb, video_tick_clears]
  · by_cases hcr : st.cache_rendered = true
    · have hvr : video_render env st = (Outcome.skip, { st with cache_texture := none }) := by
        simp [video_render, hbw, hbh, hp, htg, hcr, hct]
      rw [hvr]
      simp [hcr, video_tick_clears]
    · have hcf : st.cache_rendered = false := by simpa using hcr
      have hb : env.begin_ok = true := by
        rcases hflag with h | h
        · exact absurd h hcr
        · exact h
      have hvr : video_render env st
          = (Outcome.skip, { st with cache_rendered := true, cache_texture := none }) := by
        simp [video_render, hbw, hbh, hp, htg, hcf, hb, hct]
      rw [hvr]
      simp [hcf, hb, video_tick_clears]

/-- Witness for C5 (amended) in the begin-failure mode at a concrete
environment and state. -/
theorem video_render_capture_failure_skips_witness :
    beginFailsEnv.base_width ≠ 0 ∧ beginFailsEnv.base_height ≠ 0 ∧
    beginFailsEnv.parent = true ∧ beginFailsEnv.target = true ∧
    ((sampleState.cache_rendered = false ∧ beginFailsEnv.begin_ok = false) ∨
      (beginFailsEnv.cache_tex = none ∧
        (sampleState.cache_rendered = true ∨ beginFailsEnv.begin_ok = true))) ∧
    ((video_render beginFailsEnv sampleState).1 = Outcome.skip ∧
      ((video_render beginFailsEnv sampleState).2).params = sampleState.params ∧
      ((video_render beginFailsEnv sampleState).2).source_size = sampleState.source_size ∧
      ((video_render beginFailsEnv sampleState).2).mesh = sampleState.mesh ∧
      ((video_render beginFailsEnv sampleState).2).update_mesh = sampleState.update_mesh ∧
      ((video_render beginFailsEnv sampleState).2).cache_rendered
        = (sampleState.cache_rendered || beginFailsEnv.begin_ok) ∧
      (video_tick ((video_render beginFailsEnv sampleState).2) none).cache_rendered = false) :=
  ⟨by decide, by decide, by decide, by decide, Or.inl ⟨rfl, rfl⟩,
   video_render_capture_failure_skips beginFailsEnv sampleState none
     (by decide) (by decide) (by decide) (by decide) (Or.inl ⟨rfl, rfl⟩)⟩

/-- C6: a per-axis extent mismatch — in particular a height-only change —
forces the mesh rebuild in `video_tick`: the mesh is recomputed and the
new extent stored. -/
theorem size_change_triggers_rebuild (st : InstState) (w h : Nat)
    (hch : w ≠ st.source_size.1 ∨ h ≠ st.source_size.2) :
    (video_tick st (some (w, h))).mesh = buildMesh st.params w h ∧
    (video_tick st (some (w, h))).source_size = (w, h) ∧
    (video_tick st (some (w, h))).update_mesh = false := by
  have hcond : ¬w = st.source_size.1 ∨ ¬h = st.source_size.2 ∨ st.update_mesh = true := by
    rcases hch with h | h
    · exact Or.inl h
    · exact Or.inr (Or.inl h)
  simp [video_tick, hcond]

/-- Witness for C6: a height-only change (stored extent (0,0), new extent
(0,5): width unchanged) still rebuilds. -/
theorem size_change_triggers_rebuild_witness :
    ((0 : Nat) ≠ sampleState.source_size.1 ∨ (5 : Nat) ≠ sampleState.source_size.2) ∧
    ((video_tick sampleState (some (0, 5))).mesh = buildMesh sampleState.params 0 5 ∧
      (video_tick sampleState (some (0, 5))).source_size = (0, 5) ∧
      (video_tick sampleState (some (0, 5))).update_mesh = false) :=
  ⟨Or.inr (by decide),
   size_change_triggers_rebuild sampleState 0 5 (Or.inr (by decide))⟩

/-- C7: a zero width or height is replaced by 1 before the aspect ratio
and the mesh are computed: the effective extent is clamped to at least 1,
the aspect divisor is nonzero, the aspect is positive, and the mesh built
from the raw extent equals the one built from the clamped extent. -/
theorem zero_extent_clamped (ortho : Bool) (p : TransformParams) (w h : Nat)
    (hzero : w = 0 ∨ h = 0) :
    effectiveExtent w h = (max w 1, max h 1) ∧
    ((effectiveExtent w h).2 : ℝ) ≠ 0 ∧
    0 < aspectRatioX ortho w h ∧
    buildMesh p w h = buildMesh p (max w 1) (max h 1) := by
  have e1 : (if w = 0 then 1 else w) = max w 1 := by
    by_cases hw : w = 0 <;> simp [hw] <;> omega
  have e2 : (if h = 0 then 1 else h) = max h 1 := by
    by_cases hh : h = 0 <;> simp [hh] <;> omega
  have hee : effectiveExtent w h = (max w 1, max h 1) := by
    simp only [effectiveExtent, e1, e2]
  have hw1 : max w 1 ≠ 0 := by omega
  have hh1 : max h 1 ≠ 0 := by omega
  have hee2 : effectiveExtent (max w 1) (max h 1) = (max w 1, max h 1) := by
    simp only [effectiveExtent, if_neg hw1, if_neg hh1]
  have haspect : ∀ o : Bool, aspectRatioX o w h = aspectRatioX o (max w 1) (max h 1) := by
    intro o
    simp only [aspectRatioX, hee, hee2]
  refine ⟨hee, ?_, ?_, ?_⟩
  · rw [hee]
    exact_mod_cast Nat.cast_ne_zero.mpr hh1
  · cases ortho with
    | true => simp [aspectRatioX]
    | false =>
      simp only [aspectRatioX, hee, Bool.false_eq_true, if_false]
      refine div_pos ?_ ?_
      · exact_mod_cast Nat.pos_of_ne_zero hw1
      · exact_mod_cast Nat.pos_of_ne_zero hh1
  · simp only [buildMesh]
    rw [haspect p.camera_orthographic]

/-- Witness for C7 at width 0, height 7, perspective camera. -/
theorem zero_extent_clamped_witness :
    ((0 : Nat) = 0 ∨ (7 : Nat) = 0) ∧
    (effectiveExtent 0 7 = (max 0 1, max 7 1) ∧
      ((effectiveExtent 0 7).2 : ℝ) ≠ 0 ∧
      0 < aspectRatioX false 0 7 ∧
      buildMesh sampleParams 0 7 = buildMesh sampleParams (max 0 1) (max 7 1)) :=
  ⟨Or.inl rfl, zero_extent_clamped false sampleParams 0 7 (Or.inl rfl)⟩

/-- C9: `update` selects the orthographic camera exactly when the stored
Camera.Mode integer is 0; every other integer (2, -1, …) selects the
perspective path. -/
theorem camera_mode_zero_is_orthographic (st : InstState) (s : Settings) :
    ((update st s).params.camera_orthographic = true) ↔ getInt s "Camera.Mode" = 0 := by
  simp [update, parseParams]

end StreamFX
